import Mathlib

/-!
Verification of the continuous conversation engine of `src/conversation_manager.py`
(`ConversationManager`): the VAD-driven utterance segmentation state machine
(`_process_audio_loop`), the speech-probability classifier wrapper
(`_detect_speech_in_chunk`), the per-utterance processing step (`_process_speech`)
and the lifecycle operations (`start_conversation` / `stop_conversation`).

Frames are identified by their monotone sequence index (a natural number); the
audio payload is irrelevant to the control logic modelled here. Probabilities and
millisecond durations are rationals: every numeric value manipulated by the
source (0.5, 500.0, …) is exactly representable, and the source only adds and
compares them.
-/

namespace ConversationManager

/-- Configuration values read in `ConversationManager.__init__`:
`conversation.vad_threshold` (default 0.5), `conversation.min_speech_duration_ms`
(default 500), `conversation.min_silence_duration_ms` (default 800), and the
fixed 500 ms chunk duration (`chunk_duration = 0.5` seconds, used as
`chunk_duration * 1000` milliseconds in the loop). -/
structure Config where
  vadThreshold : ℚ
  minSpeechDurationMs : ℚ
  minSilenceDurationMs : ℚ
  chunkDurationMs : ℚ
deriving DecidableEq

/-- The defaults hard-coded in `ConversationManager.__init__`. -/
def defaultConfig : Config :=
  { vadThreshold := 1/2
    minSpeechDurationMs := 500
    minSilenceDurationMs := 800
    chunkDurationMs := 500 }

/-- The configuration used by the spec's test scenarios: threshold 0.5,
1000 ms minimum speech, 1000 ms minimum silence, 500 ms frames. -/
def scenarioConfig : Config :=
  { vadThreshold := 1/2
    minSpeechDurationMs := 1000
    minSilenceDurationMs := 1000
    chunkDurationMs := 500 }

/-- An utterance as finalized by the segmenter: the accumulated frame list
(`speech_chunks`) together with the values of the `speech_duration` and
`silence_duration` accumulators at the moment of finalization. -/
structure Utterance where
  frames : List ℕ
  speechDurationMs : ℚ
  silenceDurationMs : ℚ
deriving DecidableEq

/-- Status transitions produced by the state machine in `_process_audio_loop`:
the "Speech started" transition and the "Speech ended" finalization that hands
the accumulated chunks to `_process_speech`. -/
inductive SegEvent where
  | speechStarted : SegEvent
  | speechEnded : Utterance → SegEvent
deriving DecidableEq

/-- The local state of `_process_audio_loop`: `speech_chunks`, `is_speaking`,
`silence_duration` and `speech_duration`. -/
structure SegState where
  speechChunks : List ℕ
  isSpeaking : Bool
  silenceDurationMs : ℚ
  speechDurationMs : ℚ
deriving DecidableEq

/-- The initialization at the top of `_process_audio_loop`
(`speech_chunks = []`, `is_speaking = False`, both durations 0), which is also
the state after a finalization reset. -/
def initialSegState : SegState :=
  { speechChunks := [], isSpeaking := false, silenceDurationMs := 0, speechDurationMs := 0 }

/-- One iteration of the state machine of `_process_audio_loop` (lines 162-198)
on a frame with classifier probability `prob`:
if `speech_prob > vad_threshold`, (re)enter the speaking state, append the
frame, add one chunk duration of speech, zero the silence accumulator;
otherwise, while speaking, append the frame, add one chunk duration of silence,
and finalize exactly when `silence_duration >= min_silence_duration_ms` and
`speech_duration >= min_speech_duration_ms`; while not speaking, drop the
frame. -/
def observe (cfg : Config) (s : SegState) (frame : ℕ) (prob : ℚ) :
    SegState × Option SegEvent :=
  if cfg.vadThreshold < prob then
    let s0 := if s.isSpeaking then s
      else { s with isSpeaking := true, speechDurationMs := 0, silenceDurationMs := 0 }
    ({ s0 with
        speechChunks := s0.speechChunks ++ [frame]
        speechDurationMs := s0.speechDurationMs + cfg.chunkDurationMs
        silenceDurationMs := 0 },
      if s.isSpeaking then none else some SegEvent.speechStarted)
  else
    if s.isSpeaking then
      let s1 := { s with
        silenceDurationMs := s.silenceDurationMs + cfg.chunkDurationMs
        speechChunks := s.speechChunks ++ [frame] }
      if cfg.minSilenceDurationMs ≤ s1.silenceDurationMs ∧
          cfg.minSpeechDurationMs ≤ s1.speechDurationMs then
        (initialSegState,
          some (SegEvent.speechEnded
            ⟨s1.speechChunks, s1.speechDurationMs, s1.silenceDurationMs⟩))
      else (s1, none)
    else (s, none)

/-- Run the state machine of `_process_audio_loop` over a list of classifier
probabilities, starting from state `s` with next frame index `idx`; returns the
final state and the emitted events in order. -/
def runFrom (cfg : Config) (s : SegState) (idx : ℕ) : List ℚ → SegState × List SegEvent
  | [] => (s, [])
  | p :: rest =>
    let step := observe cfg s idx p
    let next := runFrom cfg step.1 (idx + 1) rest
    (next.1, step.2.toList ++ next.2)

/-- Run the segmenter from its initial state on frames `0, 1, 2, …`. -/
def runSegmenter (cfg : Config) (probs : List ℚ) : SegState × List SegEvent :=
  runFrom cfg initialSegState 0 probs

/-- Select the utterance of a finalization event. -/
def endedUtterance : SegEvent → Option Utterance
  | SegEvent.speechEnded u => some u
  | SegEvent.speechStarted => none

/-- The utterances handed to `_process_speech` by a run of the loop, in order. -/
def utterances (cfg : Config) (probs : List ℚ) : List Utterance :=
  (runSegmenter cfg probs).2.filterMap endedUtterance

/-- Outcome of one call `self.vad_model(audio_tensor, self.sample_rate).item()`:
either a probability or a raised exception. -/
inductive VadOutcome where
  | ok : ℚ → VadOutcome
  | raises : String → VadOutcome
deriving DecidableEq

/-- `_detect_speech_in_chunk` (lines 103-128): returns 0.5 when the VAD model
is unavailable (`vad_model is None`), the model's probability when the call
succeeds, and 0.5 when the call raises (the exception is caught and logged at
warning level). -/
def detect_speech_in_chunk (modelLoaded : Bool) (out : VadOutcome) : ℚ :=
  if modelLoaded then
    match out with
    | VadOutcome.ok p => p
    | VadOutcome.raises _ => 1/2
  else 1/2

/-- The fields of the dictionary returned by
`orchestrator.process_audio_file` that `_process_speech` inspects:
`success`, `transcript`, `response`, `audio_output`, `error`. -/
structure PipelineResults where
  success : Bool
  transcript : String
  response : String
  audioOutput : Option String
  errorMsg : Option String
deriving DecidableEq

/-- Outcome of the blocking call to `orchestrator.process_audio_file`:
either it raises, or it returns a results dictionary. -/
inductive PipelineOutcome where
  | raises : String → PipelineOutcome
  | returns : PipelineResults → PipelineOutcome
deriving DecidableEq

/-- One entry put on `results_queue` by `_process_speech`
(the `{'type': 'result', …}` dictionary). -/
structure ResultEntry where
  transcript : String
  response : String
  audioPath : Option String
deriving DecidableEq

/-- `_process_speech` (lines 205-276), restricted to its observable effects on
the result channel and on the status string: when the pipeline call returns
with `success`, exactly one entry is put on `results_queue` and the status is
the success message; when it returns without `success`, nothing is put on the
queue and the status carries `results.get('error', 'Erreur inconnue')`; when
the call raises, the exception is caught, nothing is put on the queue, and the
status carries the exception message. The function is total: no branch
re-raises into the loop. -/
def process_speech (outcome : PipelineOutcome) : List ResultEntry × String :=
  match outcome with
  | PipelineOutcome.raises msg => ([], "❌ Erreur: " ++ msg)
  | PipelineOutcome.returns r =>
    if r.success then
      ([{ transcript := r.transcript, response := r.response, audioPath := r.audioOutput }],
        "✅ Réponse générée. Vous pouvez continuer...")
    else
      ([], "❌ Erreur: " ++ r.errorMsg.getD "Erreur inconnue")

/-- The audio loop coupled with processing: as in `_process_audio_loop`, each
finalization synchronously calls `_process_speech` on the accumulated chunks
before the next frame is consumed; `oracle` gives the outcome of the
orchestrator call for each utterance. Returns the final segmenter state and
the entries put on `results_queue`, in order. -/
def audioLoopFrom (cfg : Config) (oracle : Utterance → PipelineOutcome)
    (s : SegState) (idx : ℕ) : List ℚ → SegState × List ResultEntry
  | [] => (s, [])
  | p :: rest =>
    let step := observe cfg s idx p
    let here : List ResultEntry :=
      match step.2 with
      | some (SegEvent.speechEnded u) => (process_speech (oracle u)).1
      | _ => []
    let next := audioLoopFrom cfg oracle step.1 (idx + 1) rest
    (next.1, here ++ next.2)

/-- The contents of `results_queue` after the loop has consumed `probs`. -/
def resultChannel (cfg : Config) (oracle : Utterance → PipelineOutcome)
    (probs : List ℚ) : List ResultEntry :=
  (audioLoopFrom cfg oracle initialSegState 0 probs).2

/-- The entries that a list of utterances contributes to the result channel,
in order. -/
def channelEntries (oracle : Utterance → PipelineOutcome) (us : List Utterance) :
    List ResultEntry :=
  us.flatMap fun u => (process_speech (oracle u)).1

/-- Engine lifecycle state: `is_running`, whether the audio input stream is
open (`audio_stream` started), and whether the processing thread is alive. -/
structure Engine where
  is_running : Bool
  streamOpen : Bool
  threadRunning : Bool
deriving DecidableEq

/-- A freshly constructed (stopped) engine. -/
def initialEngine : Engine :=
  { is_running := false, streamOpen := false, threadRunning := false }

/-- `start_conversation` (lines 300-336): a no-op when already running;
otherwise set `is_running`, open and start the audio input stream — on a device
error, reset `is_running` to `False` and re-raise before the processing thread
is spawned — and finally spawn the processing thread. The second component is
the propagated error, if any. -/
def start_conversation (e : Engine) (deviceOk : Bool) : Engine × Option String :=
  if e.is_running then (e, none)
  else if deviceOk then
    ({ is_running := true, streamOpen := true, threadRunning := true }, none)
  else
    ({ e with is_running := false }, some "Error starting audio stream")

/-- `stop_conversation` (lines 338-361): a no-op (logged warning) when not
running; otherwise clear `is_running`, stop and close the audio stream, and
join the processing thread. -/
def stop_conversation (e : Engine) : Engine :=
  if e.is_running then
    { is_running := false, streamOpen := false, threadRunning := false }
  else e

/-! ## Step lemmas for the segmenter state machine -/

/-- A frame above threshold while already speaking: append, extend speech,
zero silence, no event. -/
theorem observe_speech_speaking (cfg : Config) (s : SegState) (f : ℕ) (p : ℚ)
    (hp : cfg.vadThreshold < p) (hs : s.isSpeaking = true) :
    observe cfg s f p =
      ({ s with
          speechChunks := s.speechChunks ++ [f]
          speechDurationMs := s.speechDurationMs + cfg.chunkDurationMs
          silenceDurationMs := 0 }, none) := by
  simp [observe, hp, hs]

/-- A frame above threshold while idle: enter the speaking state with reset
accumulators and emit `SpeechStarted`. -/
theorem observe_speech_idle (cfg : Config) (s : SegState) (f : ℕ) (p : ℚ)
    (hp : cfg.vadThreshold < p) (hs : s.isSpeaking = false) :
    observe cfg s f p =
      ({ speechChunks := s.speechChunks ++ [f]
         isSpeaking := true
         silenceDurationMs := 0
         speechDurationMs := cfg.chunkDurationMs }, some SegEvent.speechStarted) := by
  simp [observe, hp, hs]

/-- A frame at or below threshold while idle is dropped. -/
theorem observe_silence_idle (cfg : Config) (s : SegState) (f : ℕ) (p : ℚ)
    (hp : ¬ cfg.vadThreshold < p) (hs : s.isSpeaking = false) :
    observe cfg s f p = (s, none) := by
  simp [observe, hp, hs]

/-- A frame at or below threshold while speaking, when the finalization guard
does not hold: append the frame, extend silence, no event. -/
theorem observe_silence_speaking_open (cfg : Config) (s : SegState) (f : ℕ) (p : ℚ)
    (hp : ¬ cfg.vadThreshold < p) (hs : s.isSpeaking = true)
    (hg : ¬ (cfg.minSilenceDurationMs ≤ s.silenceDurationMs + cfg.chunkDurationMs ∧
      cfg.minSpeechDurationMs ≤ s.speechDurationMs)) :
    observe cfg s f p =
      ({ s with
          silenceDurationMs := s.silenceDurationMs + cfg.chunkDurationMs
          speechChunks := s.speechChunks ++ [f] }, none) := by
  simp only [observe, if_neg hp, hs, if_true, if_pos]
  rw [if_neg]
  exact hg

/-- A frame at or below threshold while speaking, when the finalization guard
holds: reset the state and emit `SpeechEnded` with the accumulated frames and
the accumulator values at finalization. -/
theorem observe_silence_speaking_ended (cfg : Config) (s : SegState) (f : ℕ) (p : ℚ)
    (hp : ¬ cfg.vadThreshold < p) (hs : s.isSpeaking = true)
    (hg : cfg.minSilenceDurationMs ≤ s.silenceDurationMs + cfg.chunkDurationMs ∧
      cfg.minSpeechDurationMs ≤ s.speechDurationMs) :
    observe cfg s f p =
      (initialSegState,
        some (SegEvent.speechEnded
          ⟨s.speechChunks ++ [f], s.speechDurationMs,
            s.silenceDurationMs + cfg.chunkDurationMs⟩)) := by
  simp only [observe, if_neg hp, hs, if_true, if_pos]
  rw [if_pos]
  exact hg

/-- Every `SpeechEnded` event produced by a single step carries durations that
meet both configured minima. -/
theorem observe_ended_durations (cfg : Config) (s : SegState) (f : ℕ) (p : ℚ)
    (u : Utterance) (h : (observe cfg s f p).2 = some (SegEvent.speechEnded u)) :
    cfg.minSpeechDurationMs ≤ u.speechDurationMs ∧
    cfg.minSilenceDurationMs ≤ u.silenceDurationMs := by
  by_cases hp : cfg.vadThreshold < p
  · by_cases hs : s.isSpeaking
    · rw [observe_speech_speaking cfg s f p hp hs] at h
      simp at h
    · rw [observe_speech_idle cfg s f p hp (Bool.not_eq_true _ ▸ hs)] at h
      simp at h
  · by_cases hs : s.isSpeaking
    · by_cases hg : cfg.minSilenceDurationMs ≤ s.silenceDurationMs + cfg.chunkDurationMs ∧
        cfg.minSpeechDurationMs ≤ s.speechDurationMs
      · rw [observe_silence_speaking_ended cfg s f p hp hs hg] at h
        simp at h
        subst h
        exact ⟨hg.2, hg.1⟩
      · rw [observe_silence_speaking_open cfg s f p hp hs hg] at h
        simp at h
    · rw [observe_silence_idle cfg s f p hp (Bool.not_eq_true _ ▸ hs)] at h
      simp at h

/-! ## Run lemmas -/

/-- Every `SpeechEnded` event of a run carries durations meeting both minima. -/
theorem runFrom_ended_durations (cfg : Config) :
    ∀ (probs : List ℚ) (s : SegState) (idx : ℕ) (u : Utterance),
    SegEvent.speechEnded u ∈ (runFrom cfg s idx probs).2 →
    cfg.minSpeechDurationMs ≤ u.speechDurationMs ∧
    cfg.minSilenceDurationMs ≤ u.silenceDurationMs := by
  intro probs
  induction probs with
  | nil => intro s idx u h; simp [runFrom] at h
  | cons p rest ih =>
    intro s idx u h
    simp only [runFrom, List.mem_append] at h
    rcases h with h | h
    · have hsome : (observe cfg s idx p).2 = some (SegEvent.speechEnded u) := by
        cases hobs : (observe cfg s idx p).2 with
        | none => rw [hobs] at h; simp at h
        | some ev => rw [hobs] at h; simp at h; rw [h]
      exact observe_ended_durations cfg s idx p u hsome
    · exact ih _ _ _ h

/-- While idle, frames at or below threshold leave the state untouched and
produce nothing. -/
theorem runFrom_no_speech (cfg : Config) :
    ∀ (probs : List ℚ) (s : SegState) (idx : ℕ), s.isSpeaking = false →
    (∀ p ∈ probs, ¬ cfg.vadThreshold < p) →
    runFrom cfg s idx probs = (s, []) := by
  intro probs
  induction probs with
  | nil => intro s idx _ _; rfl
  | cons p rest ih =>
    intro s idx hs hall
    have hp : ¬ cfg.vadThreshold < p := hall p (List.mem_cons_self p rest)
    simp only [runFrom, observe_silence_idle cfg s idx p hp hs]
    rw [ih s (idx + 1) hs fun q hq => hall q (List.mem_cons_of_mem p hq)]
    rfl

/-- Running over a concatenation splits into two consecutive runs. -/
theorem runFrom_append (cfg : Config) :
    ∀ (l1 l2 : List ℚ) (s : SegState) (idx : ℕ),
    runFrom cfg s idx (l1 ++ l2) =
      ((runFrom cfg (runFrom cfg s idx l1).1 (idx + l1.length) l2).1,
        (runFrom cfg s idx l1).2 ++
          (runFrom cfg (runFrom cfg s idx l1).1 (idx + l1.length) l2).2) := by
  intro l1
  induction l1 with
  | nil => intro l2 s idx; simp [runFrom]
  | cons p rest ih =>
    intro l2 s idx
    have harith : idx + 1 + rest.length = idx + (rest.length + 1) := by omega
    simp only [List.cons_append, runFrom, List.append_eq,
      ih l2 (observe cfg s idx p).1 (idx + 1),
      List.length_cons, harith, List.append_assoc]

/-- A run of `k` above-threshold frames from a speaking state with zero silence:
all frames are appended, speech grows by `k` chunk durations, no event. -/
theorem runFrom_speech_run (cfg : Config) (p : ℚ) (hp : cfg.vadThreshold < p) :
    ∀ (k : ℕ) (s : SegState) (idx : ℕ), s.isSpeaking = true →
    s.silenceDurationMs = 0 →
    runFrom cfg s idx (List.replicate k p) =
      ({ speechChunks := s.speechChunks ++ List.range' idx k
         isSpeaking := true
         silenceDurationMs := 0
         speechDurationMs := s.speechDurationMs + k * cfg.chunkDurationMs }, []) := by
  intro k
  induction k with
  | zero =>
    intro s idx hs hsil
    simp only [List.replicate, runFrom, List.range']
    cases s
    simp_all
  | succ k ih =>
    intro s idx hs hsil
    rw [List.replicate_succ]
    simp only [runFrom, observe_speech_speaking cfg s idx p hp hs]
    rw [ih { s with
        speechChunks := s.speechChunks ++ [idx]
        speechDurationMs := s.speechDurationMs + cfg.chunkDurationMs
        silenceDurationMs := 0 } (idx + 1) hs rfl]
    simp only [Option.toList_none, List.nil_append, Prod.mk.injEq, SegState.mk.injEq,
      List.range'_succ, List.append_assoc, List.singleton_append, hs, Nat.cast_add,
      Nat.cast_one, and_true, true_and]
    ring

/-- A run of `m` at-or-below-threshold frames from a speaking state whose
accumulated speech is still short: frames keep being appended, silence grows,
speech is unchanged, and no event is emitted (the finalization guard needs
`minSpeechDurationMs ≤ speechDurationMs`). -/
theorem runFrom_silence_run_short (cfg : Config) (p : ℚ) (hp : ¬ cfg.vadThreshold < p) :
    ∀ (m : ℕ) (s : SegState) (idx : ℕ), s.isSpeaking = true →
    s.speechDurationMs < cfg.minSpeechDurationMs →
    runFrom cfg s idx (List.replicate m p) =
      ({ speechChunks := s.speechChunks ++ List.range' idx m
         isSpeaking := true
         silenceDurationMs := s.silenceDurationMs + m * cfg.chunkDurationMs
         speechDurationMs := s.speechDurationMs }, []) := by
  intro m
  induction m with
  | zero =>
    intro s idx hs hshort
    simp only [List.replicate, runFrom, List.range']
    cases s
    simp_all
  | succ m ih =>
    intro s idx hs hshort
    have hg : ¬ (cfg.minSilenceDurationMs ≤ s.silenceDurationMs + cfg.chunkDurationMs ∧
        cfg.minSpeechDurationMs ≤ s.speechDurationMs) := by
      intro hg
      exact absurd hg.2 (not_le.mpr hshort)
    rw [List.replicate_succ]
    simp only [runFrom, observe_silence_speaking_open cfg s idx p hp hs hg]
    rw [ih { s with
        silenceDurationMs := s.silenceDurationMs + cfg.chunkDurationMs
        speechChunks := s.speechChunks ++ [idx] } (idx + 1) hs hshort]
    simp only [Option.toList_none, List.nil_append, Prod.mk.injEq, SegState.mk.injEq,
      List.range'_succ, List.append_assoc, List.singleton_append, hs, Nat.cast_add,
      Nat.cast_one, and_true, true_and]
    ring

/-- The speech accumulator grows only on above-threshold frames and is never
reset upward, so if the total above-threshold frame count times the chunk
duration stays below the speech minimum, no finalization can ever occur. -/
theorem runFrom_total_speech_short (cfg : Config) (hfd : 0 ≤ cfg.chunkDurationMs) :
    ∀ (probs : List ℚ) (s : SegState) (idx : ℕ),
    0 ≤ s.speechDurationMs →
    s.speechDurationMs +
      (probs.countP (fun p => decide (cfg.vadThreshold < p)) : ℚ) * cfg.chunkDurationMs <
      cfg.minSpeechDurationMs →
    (runFrom cfg s idx probs).2.filterMap endedUtterance = [] := by
  intro probs
  induction probs with
  | nil => intro s idx _ _; simp [runFrom]
  | cons p rest ih =>
    intro s idx hs0 hb
    rw [List.countP_cons] at hb
    by_cases hp : cfg.vadThreshold < p
    · rw [if_pos (by simpa using hp)] at hb
      push_cast at hb
      cases hsp : s.isSpeaking with
      | false =>
        simp only [runFrom, observe_speech_idle cfg s idx p hp hsp, Option.toList_some,
          List.cons_append, List.nil_append, List.filterMap_cons, endedUtterance]
        exact ih _ (idx + 1) hfd (by push_cast; linarith)
      | true =>
        simp only [runFrom, observe_speech_speaking cfg s idx p hp hsp, Option.toList_none,
          List.nil_append]
        exact ih _ (idx + 1) (by positivity) (by push_cast; linarith)
    · rw [if_neg (by simpa using hp)] at hb
      push_cast at hb
      have hcr : (0 : ℚ) ≤ (rest.countP (fun q => decide (cfg.vadThreshold < q)) : ℚ) *
          cfg.chunkDurationMs := mul_nonneg (Nat.cast_nonneg _) hfd
      have hsplt : s.speechDurationMs < cfg.minSpeechDurationMs := by linarith
      cases hsp : s.isSpeaking with
      | false =>
        simp only [runFrom, observe_silence_idle cfg s idx p hp hsp, Option.toList_none,
          List.nil_append]
        exact ih s (idx + 1) hs0 (by linarith)
      | true =>
        have hg : ¬ (cfg.minSilenceDurationMs ≤ s.silenceDurationMs + cfg.chunkDurationMs ∧
            cfg.minSpeechDurationMs ≤ s.speechDurationMs) := by
          intro hg
          exact absurd hg.2 (not_le.mpr hsplt)
        simp only [runFrom, observe_silence_speaking_open cfg s idx p hp hsp hg,
          Option.toList_none, List.nil_append]
        exact ih _ (idx + 1) hs0 (by push_cast; linarith)

/-- The entries put on `results_queue` by the coupled loop are exactly the
per-utterance entries of `_process_speech`, concatenated in the order in which
the utterances were finalized. -/
theorem audioLoopFrom_eq (cfg : Config) (oracle : Utterance → PipelineOutcome) :
    ∀ (probs : List ℚ) (s : SegState) (idx : ℕ),
    (audioLoopFrom cfg oracle s idx probs).2 =
      channelEntries oracle ((runFrom cfg s idx probs).2.filterMap endedUtterance) := by
  intro probs
  induction probs with
  | nil => intro s idx; simp [audioLoopFrom, runFrom, channelEntries]
  | cons p rest ih =>
    intro s idx
    simp only [audioLoopFrom, runFrom, List.filterMap_append]
    rw [ih _ (idx + 1)]
    cases hobs : (observe cfg s idx p).2 with
    | none =>
      simp [hobs, channelEntries, endedUtterance]
    | some ev =>
      cases ev with
      | speechStarted =>
        simp [hobs, channelEntries, endedUtterance]
      | speechEnded u =>
        simp [hobs, channelEntries, endedUtterance, List.flatMap_append]

/-- `results_queue` content over a whole run, as a function of the finalized
utterances. -/
theorem resultChannel_eq (cfg : Config) (oracle : Utterance → PipelineOutcome)
    (probs : List ℚ) :
    resultChannel cfg oracle probs = channelEntries oracle (utterances cfg probs) := by
  unfold resultChannel utterances runSegmenter
  exact audioLoopFrom_eq cfg oracle probs initialSegState 0

/-! ## Claims -/

/-- Claim C1, counterexample: on a classifier error the probability used by the
state machine is 0.5, not 1.0, and with the default threshold 0.5 (which is
below 1.0) the frame is not classified as speech. -/
theorem claim1_counterexample :
    detect_speech_in_chunk true (VadOutcome.raises "boom") ≠ 1 ∧
    ¬ (1/2 : ℚ) < detect_speech_in_chunk true (VadOutcome.raises "boom") := by
  norm_num [detect_speech_in_chunk]

/-- Claim C1, amended: for every frame on which the speech classifier raises,
the segmenter does not crash and the probability used by the state machine
defaults to 0.5; the frame is classified as speech exactly when the configured
threshold is below 0.5, so with the default threshold 0.5 it is treated as
silence. -/
theorem claim1_classifier_error_defaults_to_half (msg : String) (cfg : Config) :
    detect_speech_in_chunk true (VadOutcome.raises msg) = 1/2 ∧
    (cfg.vadThreshold < detect_speech_in_chunk true (VadOutcome.raises msg) ↔
      cfg.vadThreshold < 1/2) := by
  constructor
  · rfl
  · rw [show detect_speech_in_chunk true (VadOutcome.raises msg) = 1/2 from rfl]

/-- Claim C2, counterexample: when the answer-pipeline call raises, the
coordinator publishes zero entries on the result channel, not exactly one. -/
theorem claim2_counterexample :
    (process_speech (PipelineOutcome.raises "boom")).1.length = 0 ∧
    (process_speech (PipelineOutcome.raises "boom")).1.length ≠ 1 := by
  constructor
  · rfl
  · decide

/-- Claim C2, amended: for every utterance whose answer-pipeline call errors
(raises, or returns without success), the coordinator publishes nothing on the
result channel — the error is reported only through the status string — it
never throws out of its loop, and the loop's published results are exactly the
per-utterance entries of every finalized utterance in order, so subsequent
queued utterances are still processed. -/
theorem claim2_failure_publishes_nothing (msg : String) (r : PipelineResults)
    (hr : r.success = false) (cfg : Config) (oracle : Utterance → PipelineOutcome)
    (probs : List ℚ) :
    (process_speech (PipelineOutcome.raises msg)).1 = [] ∧
    (process_speech (PipelineOutcome.raises msg)).2 = "❌ Erreur: " ++ msg ∧
    (process_speech (PipelineOutcome.returns r)).1 = [] ∧
    (process_speech (PipelineOutcome.returns r)).2 =
      "❌ Erreur: " ++ r.errorMsg.getD "Erreur inconnue" ∧
    resultChannel cfg oracle probs = channelEntries oracle (utterances cfg probs) := by
  refine ⟨rfl, rfl, ?_, ?_, resultChannel_eq cfg oracle probs⟩
  · simp [process_speech, hr]
  · simp [process_speech, hr]

/-- Witness for C2 at a raising call, an unsuccessful result, and an empty
probability stream. -/
theorem claim2_witness :
    (process_speech (PipelineOutcome.raises "boom")).1 = [] ∧
    (process_speech (PipelineOutcome.raises "boom")).2 = "❌ Erreur: " ++ "boom" ∧
    (process_speech (PipelineOutcome.returns
      (PipelineResults.mk false "" "" none none))).1 = [] ∧
    (process_speech (PipelineOutcome.returns (PipelineResults.mk false "" "" none none))).2 =
      "❌ Erreur: " ++ (PipelineResults.mk false "" "" none none).errorMsg.getD
        "Erreur inconnue" ∧
    resultChannel defaultConfig (fun _ => PipelineOutcome.raises "boom") [] =
      channelEntries (fun _ => PipelineOutcome.raises "boom")
        (utterances defaultConfig []) :=
  claim2_failure_publishes_nothing "boom" (PipelineResults.mk false "" "" none none) rfl
    defaultConfig (fun _ => PipelineOutcome.raises "boom") []

/-- Claim C4 (confirmed): with threshold 0.5, 500 ms frames, 1000 ms minimum
speech and 1000 ms minimum silence, the probability sequence
`[0.9, 0.9, 0.1, 0.1]` produces exactly one `SpeechEnded` utterance, and it
contains exactly 4 frames. -/
theorem claim4_scenario_one_event_four_frames :
    utterances scenarioConfig [9/10, 9/10, 1/10, 1/10] =
      [⟨[0, 1, 2, 3], 1000, 1000⟩] ∧
    ((utterances scenarioConfig [9/10, 9/10, 1/10, 1/10]).map
      fun u => u.frames.length) = [4] := by
  constructor <;>
    norm_num [utterances, runSegmenter, runFrom, observe, initialSegState, scenarioConfig,
      endedUtterance, List.filterMap_cons]

/-- Claim C8 (confirmed): `stop()` on a stopped engine is the identity (only a
warning is logged), and `stop();stop()` always equals a single `stop()`. -/
theorem claim8_stop_idempotent (e e' : Engine) (h : e.is_running = false) :
    stop_conversation e = e ∧
    stop_conversation (stop_conversation e') = stop_conversation e' := by
  constructor
  · simp [stop_conversation, h]
  · by_cases hb : e'.is_running
    · simp [stop_conversation, hb]
    · simp [stop_conversation, hb]

/-- Witness for C8 at a freshly constructed stopped engine. -/
theorem claim8_witness :
    stop_conversation initialEngine = initialEngine ∧
    stop_conversation (stop_conversation initialEngine) =
      stop_conversation initialEngine :=
  claim8_stop_idempotent initialEngine initialEngine rfl

/-- Claim C9 (confirmed): when acquiring the audio input device fails,
`start()` propagates the error to the caller and leaves the engine stopped,
with no processing thread spawned and no stream open; with a working device,
`start()` raises nothing and the engine runs. -/
theorem claim9_start_device_failure (e : Engine) (h1 : e.is_running = false)
    (h2 : e.streamOpen = false) (h3 : e.threadRunning = false) :
    (start_conversation e false).2 = some "Error starting audio stream" ∧
    (start_conversation e false).1.is_running = false ∧
    (start_conversation e false).1.streamOpen = false ∧
    (start_conversation e false).1.threadRunning = false ∧
    (start_conversation e true).2 = none ∧
    (start_conversation e true).1.is_running = true := by
  simp [start_conversation, h1, h2, h3]

/-- Witness for C9 at a freshly constructed stopped engine. -/
theorem claim9_witness :
    (start_conversation initialEngine false).2 = some "Error starting audio stream" ∧
    (start_conversation initialEngine false).1.is_running = false ∧
    (start_conversation initialEngine false).1.streamOpen = false ∧
    (start_conversation initialEngine false).1.threadRunning = false ∧
    (start_conversation initialEngine true).2 = none ∧
    (start_conversation initialEngine true).1.is_running = true :=
  claim9_start_device_failure initialEngine rfl rfl rfl

/-- Claim C10 (confirmed): when the VAD model failed to load, the classifier
returns 0.5 for every frame; with the default threshold 0.5 and the strict
comparison `probability > threshold`, no frame is classified as speech, so no
event at all is emitted (no `SpeechStarted`) and no utterance is ever
finalized. -/
theorem claim10_vad_unavailable_no_events (cfg : Config) (h : cfg.vadThreshold = 1/2)
    (outs : List VadOutcome) :
    (runSegmenter cfg (outs.map (detect_speech_in_chunk false))).2 = [] ∧
    utterances cfg (outs.map (detect_speech_in_chunk false)) = [] := by
  have hall : ∀ p ∈ outs.map (detect_speech_in_chunk false), ¬ cfg.vadThreshold < p := by
    intro p hp
    rw [List.mem_map] at hp
    obtain ⟨o, -, rfl⟩ := hp
    simp [detect_speech_in_chunk, h]
  have hrun := runFrom_no_speech cfg (outs.map (detect_speech_in_chunk false))
    initialSegState 0 rfl hall
  unfold utterances runSegmenter
  rw [hrun]
  simp

/-- Witness for C10 on a one-frame stream under the default configuration. -/
theorem claim10_witness :
    (runSegmenter defaultConfig
      ([VadOutcome.raises "load failed"].map (detect_speech_in_chunk false))).2 = [] ∧
    utterances defaultConfig
      ([VadOutcome.raises "load failed"].map (detect_speech_in_chunk false)) = [] :=
  claim10_vad_unavailable_no_events defaultConfig rfl [VadOutcome.raises "load failed"]

/-- Claim C3, counterexample: a 500 ms speech run (frame 0) followed by
1000 ms of qualifying silence (frames 1, 2) under the 1000 ms/1000 ms scenario
configuration does not get discarded: when speech resumes, the previously
accumulated frames 0, 1, 2 are part of the utterance emitted later. -/
theorem claim3_counterexample :
    utterances scenarioConfig [9/10, 1/10, 1/10, 9/10, 9/10, 1/10, 1/10] =
      [⟨[0, 1, 2, 3, 4, 5, 6], 1500, 1000⟩] ∧
    0 ∈ (Utterance.mk [0, 1, 2, 3, 4, 5, 6] 1500 1000).frames := by
  constructor
  · norm_num [utterances, runSegmenter, runFrom, observe, initialSegState, scenarioConfig,
      endedUtterance, List.filterMap_cons]
  · simp

/-- Claim C3, amended: a run of `k` speech frames totalling less than
`minSpeechDurationMs` followed by any amount of silence never finalizes an
utterance (no `SpeechEnded` is emitted during the silence), but the
accumulated frames are NOT discarded: the segmenter stays in the speaking
state and keeps every frame of the run — speech and trailing silence — in its
buffer, so they become part of the next utterance if speech later resumes. -/
theorem claim3_short_speech_no_event_frames_kept (cfg : Config) (k m : ℕ)
    (pS pQ : ℚ) (hk : k ≠ 0) (hS : cfg.vadThreshold < pS)
    (hQ : ¬ cfg.vadThreshold < pQ)
    (hshort : (k : ℚ) * cfg.chunkDurationMs < cfg.minSpeechDurationMs) :
    utterances cfg (List.replicate k pS ++ List.replicate m pQ) = [] ∧
    (runSegmenter cfg (List.replicate k pS ++ List.replicate m pQ)).1.speechChunks =
      List.range (k + m) ∧
    (runSegmenter cfg (List.replicate k pS ++ List.replicate m pQ)).1.isSpeaking
      = true := by
  obtain ⟨k', rfl⟩ := Nat.exists_eq_succ_of_ne_zero hk
  have hsp : cfg.chunkDurationMs + (k' : ℚ) * cfg.chunkDurationMs <
      cfg.minSpeechDurationMs := by
    push_cast at hshort
    linarith
  have h1 : observe cfg initialSegState 0 pS =
      (⟨[0], true, 0, cfg.chunkDurationMs⟩, some SegEvent.speechStarted) := by
    rw [observe_speech_idle cfg initialSegState 0 pS hS rfl]
    rfl
  have h2 : runFrom cfg (⟨[0], true, 0, cfg.chunkDurationMs⟩ : SegState) 1
        (List.replicate k' pS) =
      (⟨[0] ++ List.range' 1 k', true, 0,
        cfg.chunkDurationMs + k' * cfg.chunkDurationMs⟩, []) := by
    rw [runFrom_speech_run cfg pS hS k' ⟨[0], true, 0, cfg.chunkDurationMs⟩ 1 rfl rfl]
  have h3 : runFrom cfg (⟨[0] ++ List.range' 1 k', true, 0,
        cfg.chunkDurationMs + k' * cfg.chunkDurationMs⟩ : SegState) (1 + k')
        (List.replicate m pQ) =
      (⟨([0] ++ List.range' 1 k') ++ List.range' (1 + k') m, true,
        0 + m * cfg.chunkDurationMs,
        cfg.chunkDurationMs + k' * cfg.chunkDurationMs⟩, []) := by
    rw [runFrom_silence_run_short cfg pQ hQ m
      ⟨[0] ++ List.range' 1 k', true, 0,
        cfg.chunkDurationMs + k' * cfg.chunkDurationMs⟩ (1 + k') rfl hsp]
  have key : runSegmenter cfg (List.replicate (k' + 1) pS ++ List.replicate m pQ) =
      (⟨([0] ++ List.range' 1 k') ++ List.range' (1 + k') m, true,
        0 + m * cfg.chunkDurationMs,
        cfg.chunkDurationMs + k' * cfg.chunkDurationMs⟩, [SegEvent.speechStarted]) := by
    unfold runSegmenter
    rw [List.replicate_succ, List.cons_append]
    simp only [runFrom]
    rw [h1]
    dsimp only
    rw [runFrom_append cfg (List.replicate k' pS) (List.replicate m pQ)
      ⟨[0], true, 0, cfg.chunkDurationMs⟩ 1]
    rw [h2]
    dsimp only
    simp only [List.length_replicate]
    rw [h3]
    rfl
  refine ⟨?_, ?_, ?_⟩
  · unfold utterances
    rw [key]
    simp [endedUtterance, List.filterMap_cons]
  · rw [key]
    show ([0] ++ List.range' 1 k') ++ List.range' (1 + k') m = List.range (k' + 1 + m)
    have e1 : [0] ++ List.range' 1 k' = List.range' 0 (k' + 1) := by
      rw [List.range'_succ 0 k' 1]
      rfl
    rw [e1, List.range_eq_range', Nat.add_comm 1 k']
    have e2 := List.range'_append 0 (k' + 1) m 1
    simp only [Nat.zero_add, Nat.one_mul] at e2
    rw [e2, Nat.add_comm m (k' + 1)]
  · rw [key]

/-- Claim C5, counterexample: under the scenario configuration
(500 ms frames, 1000 ms minima), the sequence
`[0.9, 0.1, 0.9, 0.1, 0.9, 0.1, 0.1]` has every contiguous speech block of
length 1 (500 ms < 1000 ms), yet a `SpeechEnded` event IS emitted, because the
speech accumulator is never reset while the speaking state persists. -/
theorem claim5_counterexample :
    utterances scenarioConfig [9/10, 1/10, 9/10, 1/10, 9/10, 1/10, 1/10] =
      [⟨[0, 1, 2, 3, 4, 5, 6], 1500, 1000⟩] ∧
    utterances scenarioConfig [9/10, 1/10, 9/10, 1/10, 9/10, 1/10, 1/10] ≠ [] := by
  constructor <;>
    norm_num [utterances, runSegmenter, runFrom, observe, initialSegState, scenarioConfig,
      endedUtterance, List.filterMap_cons]

/-- Claim C5, amended: the speech accumulator adds one frame duration per
above-threshold frame and is never decreased while the engine observes a
sequence, so if the TOTAL number of above-threshold frames times the frame
duration is below `minSpeechDurationMs`, no `SpeechEnded` event is ever
emitted, regardless of silence; per-block shortness alone is not sufficient.
In particular, with 500 ms frames and 1000 ms minima the sequence
`[0.9, 0.1, 0.1]` yields no event. -/
theorem claim5_total_speech_short_no_event (cfg : Config) (probs : List ℚ)
    (hfd : 0 ≤ cfg.chunkDurationMs)
    (htot : ((probs.countP fun p => decide (cfg.vadThreshold < p)) : ℚ) *
      cfg.chunkDurationMs < cfg.minSpeechDurationMs) :
    utterances cfg probs = [] ∧
    utterances scenarioConfig [9/10, 1/10, 1/10] = [] := by
  constructor
  · unfold utterances runSegmenter
    refine runFrom_total_speech_short cfg hfd probs initialSegState 0 le_rfl ?_
    simpa [initialSegState] using htot
  · norm_num [utterances, runSegmenter, runFrom, observe, initialSegState, scenarioConfig,
      endedUtterance, List.filterMap_cons]

/-- Witness for C5 on `[0.9, 0.1]` under the scenario configuration. -/
theorem claim5_witness :
    utterances scenarioConfig [9/10, 1/10] = [] ∧
    utterances scenarioConfig [9/10, 1/10, 1/10] = [] :=
  claim5_total_speech_short_no_event scenarioConfig [9/10, 1/10]
    (by norm_num [scenarioConfig])
    (by norm_num [List.countP_cons, List.countP_nil, scenarioConfig])

/-- Witness for C3 with one 500 ms speech frame followed by two silence frames
(1000 ms of qualifying silence) under the scenario configuration. -/
theorem claim3_witness :
    utterances scenarioConfig
      (List.replicate 1 (9/10) ++ List.replicate 2 (1/10)) = [] ∧
    (runSegmenter scenarioConfig
      (List.replicate 1 (9/10) ++ List.replicate 2 (1/10))).1.speechChunks =
      List.range (1 + 2) ∧
    (runSegmenter scenarioConfig
      (List.replicate 1 (9/10) ++ List.replicate 2 (1/10))).1.isSpeaking = true :=
  claim3_short_speech_no_event_frames_kept scenarioConfig 1 2 (9/10) (1/10)
    (by decide) (by norm_num [scenarioConfig]) (by norm_num [scenarioConfig])
    (by norm_num [scenarioConfig])

/-- Claim C6 (confirmed): every utterance the segmenter hands to the
processing stage satisfies `speechDurationMs ≥ minSpeechDurationMs` and, at
the moment of finalization, `silenceDurationMs ≥ minSilenceDurationMs`;
shorter spans are never part of the emitted utterance list. -/
theorem claim6_finalized_utterance_meets_minima (cfg : Config) (probs : List ℚ)
    (u : Utterance) (hu : u ∈ utterances cfg probs) :
    cfg.minSpeechDurationMs ≤ u.speechDurationMs ∧
    cfg.minSilenceDurationMs ≤ u.silenceDurationMs := by
  unfold utterances runSegmenter at hu
  rw [List.mem_filterMap] at hu
  obtain ⟨ev, hev, hed⟩ := hu
  cases ev with
  | speechStarted => simp [endedUtterance] at hed
  | speechEnded u' =>
    simp only [endedUtterance, Option.some.injEq] at hed
    subst hed
    exact runFrom_ended_durations cfg probs initialSegState 0 u' hev

/-- Witness for C6 at the utterance emitted by the C4 scenario. -/
theorem claim6_witness :
    scenarioConfig.minSpeechDurationMs ≤
      (Utterance.mk [0, 1, 2, 3] 1000 1000).speechDurationMs ∧
    scenarioConfig.minSilenceDurationMs ≤
      (Utterance.mk [0, 1, 2, 3] 1000 1000).silenceDurationMs :=
  claim6_finalized_utterance_meets_minima scenarioConfig [9/10, 9/10, 1/10, 1/10]
    (Utterance.mk [0, 1, 2, 3] 1000 1000)
    (by norm_num [utterances, runSegmenter, runFrom, observe, initialSegState,
      scenarioConfig, endedUtterance, List.filterMap_cons])

/-- Claim C7 (confirmed): processing is serialized in finalization order — the
result channel is exactly the concatenation of each finalized utterance's
published entries, in order; in particular, whenever `u1` is finalized before
`u2`, every entry of `u1` appears on the channel before every entry of `u2`. -/
theorem claim7_results_serialized_in_finalization_order (cfg : Config)
    (oracle : Utterance → PipelineOutcome) (probs : List ℚ)
    (l1 l2 l3 : List Utterance) (u1 u2 : Utterance)
    (h : utterances cfg probs = l1 ++ u1 :: (l2 ++ u2 :: l3)) :
    resultChannel cfg oracle probs =
      channelEntries oracle l1 ++ ((process_speech (oracle u1)).1 ++
        (channelEntries oracle l2 ++ ((process_speech (oracle u2)).1 ++
          channelEntries oracle l3))) := by
  rw [resultChannel_eq cfg oracle probs, h]
  simp [channelEntries, List.flatMap_append, List.flatMap_cons, List.append_assoc]

/-- Witness for C7: two utterances finalized in order under the scenario
configuration, with a constant successful pipeline. -/
theorem claim7_witness :
    resultChannel scenarioConfig
      (fun _ => PipelineOutcome.returns (PipelineResults.mk true "t" "r" none none))
      [9/10, 9/10, 1/10, 1/10, 9/10, 9/10, 1/10, 1/10] =
      channelEntries
        (fun _ => PipelineOutcome.returns (PipelineResults.mk true "t" "r" none none))
        [] ++
      ((process_speech
        (PipelineOutcome.returns (PipelineResults.mk true "t" "r" none none))).1 ++
        (channelEntries
          (fun _ => PipelineOutcome.returns (PipelineResults.mk true "t" "r" none none))
          [] ++
        ((process_speech
          (PipelineOutcome.returns (PipelineResults.mk true "t" "r" none none))).1 ++
          channelEntries
            (fun _ => PipelineOutcome.returns (PipelineResults.mk true "t" "r" none none))
            []))) :=
  claim7_results_serialized_in_finalization_order scenarioConfig
    (fun _ => PipelineOutcome.returns (PipelineResults.mk true "t" "r" none none))
    [9/10, 9/10, 1/10, 1/10, 9/10, 9/10, 1/10, 1/10]
    [] [] [] (Utterance.mk [0, 1, 2, 3] 1000 1000) (Utterance.mk [4, 5, 6, 7] 1000 1000)
    (by norm_num [utterances, runSegmenter, runFrom, observe, initialSegState,
      scenarioConfig, endedUtterance, List.filterMap_cons])

end ConversationManager
